import Mathlib

/-!
Verification development for the tracer-server progressive render orchestrator.

The Go program (`main.go` plus the GUI-enabled server source) drives an external
ray-tracing engine (`github.com/ghostec/tracer`).  We embed the orchestration
layer shallowly: the renderer state, the reset (epoch advance) protocol, the
scene and overlay sampling passes with their epoch guards, the websocket input
handler, the encode (composition) operation, the stream-publisher push loop and
the process bootstrap.  The external engine's buffer operations (frame
allocation, running-average merge, alpha blend, edge extraction) are not in the
repository; they are modelled from the specification's description of the
Accumulation Buffer, with the pixel channels idealized as rationals.

Sampling passes run concurrently with input handling; a pass is embedded as a
function of the state at its two lock-protected sections: the state `s0` at
which it captures the epoch counter, and the state `smerge` at which it tries
to merge its completed result.  Engine outputs (pass pixel content, hit tests,
BVH-construction results) are inputs to the embedding.
-/

namespace Tracer

/-- One linear-color pixel of an accumulation buffer: floating-point channels
idealized as rationals, plus the alpha component used by overlay blending.
Modelled from the spec: "a rectangular grid of linear-color accumulators
(floating-point per channel) ... optionally tagged supports-alpha". -/
structure Pixel where
  r : ℚ
  g : ℚ
  b : ℚ
  a : ℚ
deriving DecidableEq

def Pixel.zero : Pixel := ⟨0, 0, 0, 0⟩

/-- A pixel buffer: immutable dimensions plus row-major pixel data. -/
structure Frame where
  width : Nat
  height : Nat
  pixels : List Pixel
deriving DecidableEq

/-- `tracer.NewFrame(w, h, ...)`: a freshly allocated zeroed buffer.
Modelled from the spec: buffers are created zeroed at fixed dimensions. -/
def frameNew (w h : Nat) : Frame :=
  ⟨w, h, List.replicate (w * h) Pixel.zero⟩

/-- `imageWidth := 500` from `newFrame` in the server source. -/
def imageWidth : Nat := 500

/-- `imageHeight := int(float64(imageWidth) / (16.0 / 9.0))` from `newFrame`:
the quotient is exact in float64, and Go `int(...)` truncates. -/
def imageHeight : Nat := (⌊(imageWidth : ℚ) / (16 / 9)⌋ : ℤ).toNat

/-- `newFrame()` in the server source: a fresh zeroed buffer at the fixed
resolution. -/
def newFrame : Frame := frameNew imageWidth imageHeight

/-- Why the engine's merge/blend can refuse: mismatched operand dimensions
(spec: "panics/fails with DimensionMismatch"), or — for the overlay pass —
the sub-scene BVH construction failing (the code then panics). -/
inductive FailCause where
  | dimMismatch
  | bvhBuild
deriving DecidableEq

/-- Equal-weight pairwise average of two pixels, the spec's "unweighted running
average of the existing value and the other's value at that pixel". -/
def Pixel.avg2 (p q : Pixel) : Pixel :=
  ⟨(p.r + q.r) / 2, (p.g + q.g) / 2, (p.b + q.b) / 2, (p.a + q.a) / 2⟩

/-- Pixel data of `Frame.Avg` in the dimensions-match case. -/
def frameAvgData (f g : Frame) : Frame :=
  ⟨f.width, f.height, List.zipWith Pixel.avg2 f.pixels g.pixels⟩

/-- `tracer.Frame.Avg(other)`. Modelled from the spec: per-pixel unweighted
running average; precondition that dimensions match, DimensionMismatch
otherwise. -/
def Frame.avgChecked (f g : Frame) : Except FailCause Frame :=
  if f.width = g.width ∧ f.height = g.height then
    .ok (frameAvgData f g)
  else
    .error .dimMismatch

/-- One pixel of `blend(overlay, overlayWeight, baseWeight)`. Modelled from the
spec: "replaces the stored value with base*baseWeight + overlay*overlayWeight,
where ... zero-alpha overlay pixels leave the base untouched". The alpha of an
affected result pixel is not specified; we keep the base's alpha. -/
def Pixel.blendOver (base ov : Pixel) (ow bw : ℚ) : Pixel :=
  if ov.a = 0 then base
  else ⟨base.r * bw + ov.r * ow, base.g * bw + ov.g * ow, base.b * bw + ov.b * ow, base.a⟩

/-- Pixel data of `Frame.Blend` in the dimensions-match case. -/
def frameBlendData (base ov : Frame) (ow bw : ℚ) : Frame :=
  ⟨base.width, base.height, List.zipWith (fun p q => Pixel.blendOver p q ow bw) base.pixels ov.pixels⟩

/-- `tracer.Frame.Blend(overlay, overlayWeight, baseWeight)`. Modelled from the
spec: per-pixel weighted sum gated by the overlay's alpha; dimensions must
match. -/
def Frame.blendChecked (base ov : Frame) (ow bw : ℚ) : Except FailCause Frame :=
  if base.width = ov.width ∧ base.height = ov.height then
    .ok (frameBlendData base ov ow bw)
  else
    .error .dimMismatch

/-- `tracer.ToEdgesFrame(frame, color)`. Modelled from the spec: "convert the
raw hit-mask into a thin edge outline in a chosen highlight color"; the edge
detection itself is external, so we model it as a per-pixel mask-to-color map
that preserves the frame's dimensions, which is all the orchestration layer
relies on. -/
def toEdgesFrame (f : Frame) (cr cg cb : ℚ) : Frame :=
  ⟨f.width, f.height,
    f.pixels.map (fun p => if p.r ≠ 0 ∨ p.g ≠ 0 ∨ p.b ≠ 0 then ⟨cr, cg, cb, 1⟩ else Pixel.zero)⟩

/-- A point in the scene, `tracer.Point3`. -/
structure Point3 where
  x : ℚ
  y : ℚ
  z : ℚ
deriving DecidableEq

/-- `tracer.Camera`: the fields the orchestrator reads and writes. -/
structure Camera where
  aspectRatio : ℚ
  vfov : ℚ
  lookFrom : Point3
  lookAt : Point3
  vup : Point3
deriving DecidableEq

/-- Go zero value of `tracer.Camera`, as left by `newRenderer`. -/
def zeroCamera : Camera := ⟨0, 0, ⟨0, 0, 0⟩, ⟨0, 0, 0⟩, ⟨0, 0, 0⟩⟩

/-- The camera installed by `loadScene`. -/
def loadedCamera : Camera := ⟨16 / 9, 90, ⟨0, 2, 1⟩, ⟨0, 0, -1⟩, ⟨0, 1, 0⟩⟩

/-- The `renderer` struct: buffers, selection handles, scene handle, camera,
the cancellation channel (a signal identifier plus the list of already
cancelled signal identifiers) and the epoch counter (`frameId`, a `uint64`).
BVH-node and scene handles are opaque and embedded as naturals. -/
structure RendererState where
  sceneFrame : Frame
  guiFrame : Frame
  selected : Option Nat
  hovered : Option Nat
  scene : Option Nat
  camera : Camera
  stop : Nat
  cancelled : List Nat
  frameId : Nat
deriving DecidableEq

/-- `newRenderer()`: fresh buffers, a live signal, epoch 0, nil handles,
zero-valued camera. -/
def initialState : RendererState :=
  ⟨newFrame, newFrame, none, none, none, zeroCamera, 0, [], 0⟩

/-- `(*renderer).reset()`: close the stop channel (cancelling the current
signal), make a fresh channel, replace both buffers with fresh zeroed ones and
increment the `uint64` epoch counter. -/
def reset (s : RendererState) : RendererState :=
  { s with
      stop := s.stop + 1
      cancelled := s.stop :: s.cancelled
      sceneFrame := newFrame
      guiFrame := newFrame
      frameId := (s.frameId + 1) % 2 ^ 64 }

/-- Result of running one orchestrator operation: the state afterwards, and
whether the operation panicked (Go `panic`). -/
structure StepOut where
  state : RendererState
  aborted : Bool
deriving DecidableEq

/-- A buffer of dimensions `w × h` filled in place by the external engine;
`fill` is the engine's (unconstrained) output content. -/
def engineFrameAt (w h : Nat) (fill : Nat → Pixel) : Frame :=
  ⟨w, h, (List.range (w * h)).map fill⟩

/-- `frame := newFrame(); tracer.Render(..Frame: frame..)`: the scene pass's
freshly allocated buffer after the engine fills it. -/
def engineFrame (fill : Nat → Pixel) : Frame :=
  engineFrameAt imageWidth imageHeight fill

/-- The lock-protected tail of `(*renderer).render()`: if the live epoch still
equals the captured one, merge the pass result into the base buffer with
`Avg`; otherwise leave the state untouched. A dimension mismatch in `Avg`
would panic. -/
def renderFinish (captured : Nat) (result : Frame) (s : RendererState) : StepOut :=
  if s.frameId = captured then
    match s.sceneFrame.avgChecked result with
    | .ok f => ⟨{ s with sceneFrame := f }, false⟩
    | .error _ => ⟨s, true⟩
  else
    ⟨s, false⟩

/-- `(*renderer).render()`: capture the epoch under the lock at state `s0`,
let the engine fill a fresh buffer, then run the merge section against the
state `smerge` current at completion time. -/
def renderPass (fill : Nat → Pixel) (s0 smerge : RendererState) : StepOut :=
  renderFinish s0.frameId (engineFrame fill) smerge

/-- External inputs consumed by the overlay pass and the pointer handlers:
the results of the two single-object BVH constructions, the engine's edge-pass
outputs, and the scene hit test used by mousemove/mouseclick. -/
structure GuiEnv where
  hoveredBVH : Except Unit Nat
  selectedBVH : Except Unit Nat
  hoverFill : Nat → Pixel
  selectFill : Nat → Pixel
  hitTest : Int → Int → Option Nat

/-- One highlight block of `(*renderer).renderGUI()`: if the handle is set,
construct the single-object sub-scene BVH (panicking if that fails, as the
code does with its placeholder error), render an edge pass into a buffer sized
from the live base buffer, convert it to an outline in the given color and
blend it onto the overlay buffer being built. -/
def guiBlendStep (gui : Frame) (handle : Option Nat) (bvh : Except Unit Nat)
    (fill : Nat → Pixel) (w h : Nat) (cr cg cb : ℚ) : Except FailCause Frame :=
  match handle with
  | none => .ok gui
  | some _ =>
    match bvh with
    | .error _ => .error .bvhBuild
    | .ok _ => gui.blendChecked (toEdgesFrame (engineFrameAt w h fill) cr cg cb) 1 1

/-- The unlocked middle of `(*renderer).renderGUI()`: build a fresh overlay
buffer, blending in a yellow outline for the hovered handle and then a red
outline for the selected handle. -/
def renderGUIcompute (env : GuiEnv) (s : RendererState) : Except FailCause Frame :=
  match guiBlendStep newFrame s.hovered env.hoveredBVH env.hoverFill
      s.sceneFrame.width s.sceneFrame.height 255 255 0 with
  | .error c => .error c
  | .ok gui1 =>
    guiBlendStep gui1 s.selected env.selectedBVH env.selectFill
      s.sceneFrame.width s.sceneFrame.height 255 0 0

/-- The lock-protected tail of `(*renderer).renderGUI()`: replace the overlay
buffer only if the live epoch still equals the captured one. -/
def renderGUIFinish (captured : Nat) (gui : Frame) (s : RendererState) : RendererState :=
  if s.frameId = captured then { s with guiFrame := gui } else s

/-- `(*renderer).renderGUI()`: capture the epoch at state `s0`, compute the
overlay (reading `s0`'s handles and base-buffer dimensions), then run the
replace section against the completion-time state `smerge`. -/
def renderGUIpass (env : GuiEnv) (s0 smerge : RendererState) : StepOut :=
  match renderGUIcompute env s0 with
  | .error _ => ⟨smerge, true⟩
  | .ok gui => ⟨renderGUIFinish s0.frameId gui smerge, false⟩

/-- `(*renderer).mousemove(x, y)`: hit-test the pixel's camera ray, set or
clear the hovered handle accordingly, then run the overlay pass. -/
def mousemove (env : GuiEnv) (x y : Int) (s : RendererState) : StepOut :=
  let hr := env.hitTest x y
  let s1 := { s with hovered := hr }
  renderGUIpass env s1 s1

/-- `(*renderer).mouseclick(x, y)`: like mousemove but for the selected
handle. -/
def mouseclick (env : GuiEnv) (x y : Int) (s : RendererState) : StepOut :=
  let hr := env.hitTest x y
  let s1 := { s with selected := hr }
  renderGUIpass env s1 s1

/-- `camera.LookFrom[0] += d`. -/
def camAddX (s : RendererState) (d : ℚ) : RendererState :=
  { s with camera :=
      { s.camera with lookFrom := { s.camera.lookFrom with x := s.camera.lookFrom.x + d } } }

/-- `camera.LookFrom[2] += d`. -/
def camAddZ (s : RendererState) (d : ℚ) : RendererState :=
  { s with camera :=
      { s.camera with lookFrom := { s.camera.lookFrom with z := s.camera.lookFrom.z + d } } }

/-- One digit of `strconv.Atoi`. -/
def digitVal (c : Char) : Option Nat :=
  if decide ('0' ≤ c) && decide (c ≤ '9') then some (c.toNat - '0'.toNat) else none

/-- Decimal accumulation for `strconv.Atoi`. -/
def digitsToNat : List Char → Nat → Option Nat
  | [], acc => some acc
  | c :: rest, acc =>
    match digitVal c with
    | none => none
    | some d => digitsToNat rest (acc * 10 + d)

/-- `strconv.Atoi`: optional sign, then one or more decimal digits, the value
required to fit in a 64-bit int (out-of-range input is an error). -/
def goAtoi (str : String) : Option Int :=
  match str.toList with
  | [] => none
  | c0 :: rest =>
    let signAndDigits : Bool × List Char :=
      if c0 = '-' then (true, rest)
      else if c0 = '+' then (false, rest)
      else (false, c0 :: rest)
    match signAndDigits.2 with
    | [] => none
    | _ =>
      match digitsToNat signAndDigits.2 0 with
      | none => none
      | some n =>
        let v : Int := if signAndDigits.1 then -(n : Int) else (n : Int)
        if -(2 ^ 63) ≤ v ∧ v ≤ 2 ^ 63 - 1 then some v else none

/-- `strings.HasPrefix`, character by character: the first list is the
pattern, the second the text. -/
def charsHavePre (pat s : List Char) : Bool :=
  match pat, s with
  | [], _ => true
  | _ :: _, [] => false
  | c :: cs, d :: ds => c == d && charsHavePre cs ds

/-- `strings.HasPrefix(s, pat)`. -/
def startsWithGo (s pat : String) : Bool :=
  charsHavePre pat.toList s.toList

/-- `strings.Split(s, " ")` on the character list: fields are separated at
every single space, empty fields are kept. -/
def splitSpaceChars : List Char → List Char → List (List Char)
  | [], acc => [acc.reverse]
  | c :: rest, acc =>
    if c = ' ' then acc.reverse :: splitSpaceChars rest []
    else splitSpaceChars rest (c :: acc)

/-- `strings.Split(msg, " ")`. -/
def goSplitSpace (s : String) : List String :=
  (splitSpaceChars s.toList []).map (fun cs => ⟨cs⟩)

/-- The parsing stage of the pointer branch of the read loop in `ws`:
`strings.Split` the message at single spaces, require exactly three fields,
and `strconv.Atoi` both coordinates; the verb field is kept for the inner
dispatch. -/
def parsePointerMsg (msg : String) : Option (String × Int × Int) :=
  match goSplitSpace msg with
  | [p0, p1, p2] =>
    match goAtoi p1, goAtoi p2 with
    | some x, some y => some (p0, x, y)
    | _, _ => none
  | _ => none

/-- The body of the websocket read loop in `ws` for one inbound message:
messages "1"–"4" adjust the camera and fall through to `reset()`; pointer
messages are parsed (`strings.Split` by a single space, `strconv.Atoi` on both
coordinates) and dispatch to mousemove/mouseclick, then `continue` past the
reset; everything else `continue`s with no effect. -/
def handleMessage (env : GuiEnv) (msg : String) (s : RendererState) : StepOut :=
  if msg = "1" then ⟨reset (camAddZ s (-(1 / 2))), false⟩
  else if msg = "2" then ⟨reset (camAddZ s (1 / 2)), false⟩
  else if msg = "3" then ⟨reset (camAddX s (-(1 / 2))), false⟩
  else if msg = "4" then ⟨reset (camAddX s (1 / 2)), false⟩
  else if startsWithGo msg "mousemove" || startsWithGo msg "mouseclick" then
    match parsePointerMsg msg with
    | some (p0, x, y) =>
      if p0 = "mousemove" then mousemove env x y s
      else if p0 = "mouseclick" then mouseclick env x y s
      else ⟨s, false⟩
    | none => ⟨s, false⟩
  else ⟨s, false⟩

/-- `(*renderer).Encode(w)`: allocate a fresh buffer, under the lock blend the
overlay buffer then the base buffer into it, and hand the composed frame to
the codec. No field of the renderer is written. -/
def encode (s : RendererState) : RendererState × Except FailCause Frame :=
  let frame := newFrame
  match frame.blendChecked s.guiFrame 1 1 with
  | .error c => (s, .error c)
  | .ok f1 =>
    match f1.blendChecked s.sceneFrame 1 1 with
    | .error c => (s, .error c)
    | .ok f2 => (s, .ok f2)

/-- The spec's description of the Composed Image, in its own words: "computed
on demand by blending the overlay buffer over the base accumulation buffer".
Stated for comparison against what `encode` computes. -/
def specComposedImage (s : RendererState) : Except FailCause Frame :=
  s.sceneFrame.blendChecked s.guiFrame 1 1

/-- The color content of a frame, as it reaches the image codec (alpha is not
part of the encoded image). -/
def Frame.rgbData (f : Frame) : List (ℚ × ℚ × ℚ) :=
  f.pixels.map (fun p => (p.r, p.g, p.b))

/-- `math.Max(0.0, float64(200-elapsed.Milliseconds()))` from the push loop of
`ws` (the float conversion is exact on every magnitude that can affect the
result). -/
def wsSleepMs (elapsedMs : Int) : Int := max 0 (200 - elapsedMs)

/-- Outcome of one iteration of the stream-publisher push goroutine: either it
sleeps for the computed pacing interval and repeats, or it panics. The
goroutine is spawned with `go` and has no recover, so a panic aborts the whole
process. -/
inductive WsPushOutcome where
  | sleep (ms : Int)
  | processCrash
deriving DecidableEq

/-- One iteration of the push goroutine in `ws`: `panic(err)` if `Encode`
fails, `panic(err)` if `WriteMessage` fails, otherwise sleep the self-paced
interval. -/
def wsPushIteration (encodeErr writeErr : Bool) (elapsedMs : Int) : WsPushOutcome :=
  if encodeErr then .processCrash
  else if writeErr then .processCrash
  else .sleep (wsSleepMs elapsedMs)

/-- `(*renderer).loadScene()`: build the BVH over the fixed sphere list (the
construction result is an engine input); on success install the scene handle
and the camera, on failure return the error with neither installed. -/
def loadScene (bvhResult : Except Unit Nat) (s : RendererState) :
    Except Unit RendererState :=
  match bvhResult with
  | .error e => .error e
  | .ok bvh => .ok { s with scene := some bvh, camera := loadedCamera }

/-- What `main` reaches at boot: the renderer state it serves with, and
whether it goes on to register the HTTP handlers, start the background render
loop and listen. -/
structure BootResult where
  state : RendererState
  servingStarted : Bool
deriving DecidableEq

/-- `main()`: `rendererObj.loadScene()` is called and its error return value
is discarded; the handlers, the background render loop and the listener are
started unconditionally afterwards. -/
def goMain (bvhResult : Except Unit Nat) : BootResult :=
  let s0 := initialState
  let s1 :=
    match loadScene bvhResult s0 with
    | .ok s => s
    | .error _ => s0
  ⟨s1, true⟩

/-- A buffer has the program's fixed resolution and a full pixel grid. -/
def frameDimsOK (f : Frame) : Prop :=
  f.width = imageWidth ∧ f.height = imageHeight ∧
    f.pixels.length = imageWidth * imageHeight

/-- Both live buffers have the fixed resolution. -/
def dimsOK (s : RendererState) : Prop :=
  frameDimsOK s.sceneFrame ∧ frameDimsOK s.guiFrame

instance (f : Frame) : Decidable (frameDimsOK f) := by
  unfold frameDimsOK; infer_instance

instance (s : RendererState) : Decidable (dimsOK s) := by
  unfold dimsOK; infer_instance

/-- Pixels the renderer has not covered (zero alpha) carry no color. -/
def zeroAlphaZeroRGB (f : Frame) : Prop :=
  ∀ p ∈ f.pixels, p.a = 0 → p.r = 0 ∧ p.g = 0 ∧ p.b = 0

/-- An inbound message outside the wire protocol's vocabulary: none of the
four camera commands, and not a pointer command that splits into exactly three
fields with both coordinates accepted by `strconv.Atoi` and a verb the inner
dispatch recognizes. -/
def ignoredMsg (msg : String) : Bool :=
  !(msg == "1" || msg == "2" || msg == "3" || msg == "4") &&
    (match parsePointerMsg msg with
     | some (p0, _, _) => !(p0 == "mousemove" || p0 == "mouseclick")
     | none => true)

/-- An engine environment in which nothing fails and nothing is hit. -/
def trivGuiEnv : GuiEnv :=
  ⟨.ok 0, .ok 0, fun _ => Pixel.zero, fun _ => Pixel.zero, fun _ _ => none⟩

/-- An engine environment in which the hovered handle's single-object
sub-scene BVH construction fails and every hit test reports a hit. -/
def guiEnvBVHfail : GuiEnv :=
  ⟨.error (), .ok 0, fun _ => Pixel.zero, fun _ => Pixel.zero, fun _ _ => some 0⟩

/-- The states the serving process can be in: what `main` boots into, closed
under handling one inbound websocket message, and under completing a scene or
overlay sampling pass whose epoch was captured at any other reachable state
(the in-between interleaving of concurrent operations). -/
inductive Reach : RendererState → Prop where
  | boot (bvhResult : Except Unit Nat) : Reach (goMain bvhResult).state
  | handle (env : GuiEnv) (msg : String) (s : RendererState) :
      Reach s → Reach (handleMessage env msg s).state
  | scenePass (fill : Nat → Pixel) (s0 s1 : RendererState) :
      Reach s0 → Reach s1 → Reach (renderPass fill s0 s1).state
  | guiPass (env : GuiEnv) (s0 s1 : RendererState) :
      Reach s0 → Reach s1 → Reach (renderGUIpass env s0 s1).state

end Tracer

namespace Tracer

/-! ### Dimension bookkeeping -/

theorem imageHeight_eq : imageHeight = 281 := by
  norm_num [imageHeight, imageWidth]
  decide

theorem frameDimsOK_newFrame : frameDimsOK newFrame := by
  refine ⟨rfl, rfl, ?_⟩
  simp [newFrame, frameNew]

theorem frameDimsOK_engineFrame (fill : Nat → Pixel) :
    frameDimsOK (engineFrame fill) := by
  refine ⟨rfl, rfl, ?_⟩
  simp [engineFrame, engineFrameAt]

theorem frameDimsOK_edges (fill : Nat → Pixel) (cr cg cb : ℚ) :
    frameDimsOK (toEdgesFrame (engineFrameAt imageWidth imageHeight fill) cr cg cb) := by
  refine ⟨rfl, rfl, ?_⟩
  simp [toEdgesFrame, engineFrameAt]

theorem dimsOK_initialState : dimsOK initialState :=
  ⟨frameDimsOK_newFrame, frameDimsOK_newFrame⟩

theorem frameDimsOK_avgData (f g : Frame) (hf : frameDimsOK f) (hg : frameDimsOK g) :
    frameDimsOK (frameAvgData f g) := by
  refine ⟨hf.1, hf.2.1, ?_⟩
  simp [frameAvgData, hf.2.2, hg.2.2]

theorem frameDimsOK_blendData (f g : Frame) (ow bw : ℚ)
    (hf : frameDimsOK f) (hg : frameDimsOK g) :
    frameDimsOK (frameBlendData f g ow bw) := by
  refine ⟨hf.1, hf.2.1, ?_⟩
  simp [frameBlendData, hf.2.2, hg.2.2]

theorem avgChecked_ok (f g : Frame) (hf : frameDimsOK f) (hg : frameDimsOK g) :
    f.avgChecked g = .ok (frameAvgData f g) := by
  unfold Frame.avgChecked
  rw [if_pos ⟨hf.1.trans hg.1.symm, hf.2.1.trans hg.2.1.symm⟩]

theorem blendChecked_ok (f g : Frame) (ow bw : ℚ)
    (hf : frameDimsOK f) (hg : frameDimsOK g) :
    f.blendChecked g ow bw = .ok (frameBlendData f g ow bw) := by
  unfold Frame.blendChecked
  rw [if_pos ⟨hf.1.trans hg.1.symm, hf.2.1.trans hg.2.1.symm⟩]

theorem avgChecked_eq_ok (f g h : Frame) (he : f.avgChecked g = .ok h) :
    h = frameAvgData f g := by
  unfold Frame.avgChecked at he
  split at he
  · exact (Except.ok.injEq _ _).mp he |>.symm
  · cases he

theorem blendChecked_eq_ok (f g h : Frame) (ow bw : ℚ)
    (he : f.blendChecked g ow bw = .ok h) : h = frameBlendData f g ow bw := by
  unfold Frame.blendChecked at he
  split at he
  · exact (Except.ok.injEq _ _).mp he |>.symm
  · cases he

end Tracer

namespace Tracer

/-! ### Invariant: every state update keeps the fixed resolution -/

theorem guiBlendStep_dims (gui : Frame) (handle : Option Nat) (bvh : Except Unit Nat)
    (fill : Nat → Pixel) (cr cg cb : ℚ) (hg : frameDimsOK gui) :
    guiBlendStep gui handle bvh fill imageWidth imageHeight cr cg cb ≠ .error .dimMismatch ∧
      ∀ g, guiBlendStep gui handle bvh fill imageWidth imageHeight cr cg cb = .ok g →
        frameDimsOK g := by
  unfold guiBlendStep
  cases handle with
  | none => exact ⟨by simp, fun g hgg => by simp at hgg; rw [← hgg]; exact hg⟩
  | some n =>
    cases bvh with
    | error e => exact ⟨by simp, fun g hgg => by simp at hgg⟩
    | ok b =>
      rw [blendChecked_ok gui (toEdgesFrame (engineFrameAt imageWidth imageHeight fill) cr cg cb)
        1 1 hg (frameDimsOK_edges _ _ _ _)]
      exact ⟨by simp, fun g hgg => by
        simp at hgg
        rw [← hgg]
        exact frameDimsOK_blendData _ _ 1 1 hg (frameDimsOK_edges _ _ _ _)⟩

theorem renderGUIcompute_dims (env : GuiEnv) (s : RendererState)
    (hs : frameDimsOK s.sceneFrame) :
    renderGUIcompute env s ≠ .error .dimMismatch ∧
      ∀ g, renderGUIcompute env s = .ok g → frameDimsOK g := by
  unfold renderGUIcompute
  rw [hs.1, hs.2.1]
  obtain ⟨h1ne, h1ok⟩ := guiBlendStep_dims newFrame s.hovered env.hoveredBVH env.hoverFill
    255 255 0 frameDimsOK_newFrame
  cases h1 : guiBlendStep newFrame s.hovered env.hoveredBVH env.hoverFill
      imageWidth imageHeight 255 255 0 with
  | error c =>
    refine ⟨fun hcon => ?_, fun g hgg => by simp at hgg⟩
    rw [h1] at h1ne
    simp at hcon
    exact h1ne (by rw [hcon])
  | ok gui1 =>
    exact guiBlendStep_dims gui1 s.selected env.selectedBVH env.selectFill
      255 0 0 (h1ok gui1 h1)

end Tracer

namespace Tracer

theorem dimsOK_reset (s : RendererState) : dimsOK (reset s) :=
  ⟨frameDimsOK_newFrame, frameDimsOK_newFrame⟩

theorem dimsOK_renderGUIpass (env : GuiEnv) (s0 s1 : RendererState)
    (h0 : frameDimsOK s0.sceneFrame) (h1 : dimsOK s1) :
    dimsOK (renderGUIpass env s0 s1).state := by
  unfold renderGUIpass
  cases hc : renderGUIcompute env s0 with
  | error c => exact h1
  | ok gui =>
    have hgui := (renderGUIcompute_dims env s0 h0).2 gui hc
    unfold renderGUIFinish
    dsimp only
    split
    · exact ⟨h1.1, hgui⟩
    · exact h1

theorem dimsOK_mousemove (env : GuiEnv) (x y : Int) (s : RendererState)
    (h : dimsOK s) : dimsOK (mousemove env x y s).state := by
  unfold mousemove
  exact dimsOK_renderGUIpass env _ _ h.1 ⟨h.1, h.2⟩

theorem dimsOK_mouseclick (env : GuiEnv) (x y : Int) (s : RendererState)
    (h : dimsOK s) : dimsOK (mouseclick env x y s).state := by
  unfold mouseclick
  exact dimsOK_renderGUIpass env _ _ h.1 ⟨h.1, h.2⟩

theorem dimsOK_handleMessage (env : GuiEnv) (msg : String) (s : RendererState)
    (h : dimsOK s) : dimsOK (handleMessage env msg s).state := by
  unfold handleMessage
  repeat' split
  all_goals first
    | exact dimsOK_reset _
    | exact dimsOK_mousemove _ _ _ _ h
    | exact dimsOK_mouseclick _ _ _ _ h
    | exact h

theorem dimsOK_renderPass (fill : Nat → Pixel) (s0 s1 : RendererState)
    (h1 : dimsOK s1) : dimsOK (renderPass fill s0 s1).state := by
  unfold renderPass renderFinish
  split
  · cases hc : s1.sceneFrame.avgChecked (engineFrame fill) with
    | error c => exact h1
    | ok f =>
      have hf : f = frameAvgData s1.sceneFrame (engineFrame fill) :=
        avgChecked_eq_ok _ _ _ hc
      subst hf
      exact ⟨frameDimsOK_avgData _ _ h1.1 (frameDimsOK_engineFrame fill), h1.2⟩
  · exact h1

theorem dimsOK_goMain (bvhResult : Except Unit Nat) : dimsOK (goMain bvhResult).state := by
  unfold goMain loadScene
  cases bvhResult with
  | error e => exact dimsOK_initialState
  | ok b => exact ⟨dimsOK_initialState.1, dimsOK_initialState.2⟩

theorem reach_dimsOK (s : RendererState) (h : Reach s) : dimsOK s := by
  induction h with
  | boot bvhResult => exact dimsOK_goMain bvhResult
  | handle env msg s hs ih => exact dimsOK_handleMessage env msg s ih
  | scenePass fill s0 s1 h0 h1 ih0 ih1 => exact dimsOK_renderPass fill s0 s1 ih1
  | guiPass env s0 s1 h0 h1 ih0 ih1 => exact dimsOK_renderGUIpass env s0 s1 ih0.1 ih1

theorem reach_initialState : Reach initialState := by
  have h := Reach.boot (.error ())
  simpa [goMain, loadScene] using h

end Tracer

namespace Tracer

theorem newFrame_pixels_zero : ∀ p ∈ newFrame.pixels, p = Pixel.zero := by
  intro p hp
  simp [newFrame, frameNew, List.mem_replicate] at hp
  exact hp.2

/-! ### Claims -/

/-- C2: every execution of `reset` cancels the current cancellation signal,
installs a fresh one, increments the epoch counter by exactly 1 (the `uint64`
counter is assumed not to be at its wrap-around point), and replaces both
buffers with freshly allocated zeroed buffers of the same dimensions; the
camera, scene handle, hovered and selected handles are untouched. -/
theorem claim_c2_reset (s : RendererState)
    (hdims : dimsOK s)
    (hid : s.frameId + 1 < 2 ^ 64)
    (hsig : ∀ c ∈ s.cancelled, c ≤ s.stop) :
    (reset s).frameId = s.frameId + 1 ∧
    (reset s).cancelled = s.stop :: s.cancelled ∧
    s.stop ∈ (reset s).cancelled ∧
    (reset s).stop = s.stop + 1 ∧
    (reset s).stop ≠ s.stop ∧
    (reset s).stop ∉ (reset s).cancelled ∧
    (reset s).sceneFrame = newFrame ∧
    (reset s).guiFrame = newFrame ∧
    (reset s).sceneFrame.width = s.sceneFrame.width ∧
    (reset s).sceneFrame.height = s.sceneFrame.height ∧
    (reset s).guiFrame.width = s.guiFrame.width ∧
    (reset s).guiFrame.height = s.guiFrame.height ∧
    (∀ p ∈ (reset s).sceneFrame.pixels, p = Pixel.zero) ∧
    (∀ p ∈ (reset s).guiFrame.pixels, p = Pixel.zero) ∧
    (reset s).camera = s.camera ∧
    (reset s).scene = s.scene ∧
    (reset s).hovered = s.hovered ∧
    (reset s).selected = s.selected := by
  refine ⟨Nat.mod_eq_of_lt hid, rfl, List.mem_cons_self _ _, rfl, Nat.succ_ne_self _, ?_,
    rfl, rfl, ?_, ?_, ?_, ?_, newFrame_pixels_zero, newFrame_pixels_zero, rfl, rfl, rfl, rfl⟩
  · intro hmem
    have hst : (reset s).stop = s.stop + 1 := rfl
    have hcl : (reset s).cancelled = s.stop :: s.cancelled := rfl
    rw [hst, hcl] at hmem
    rcases List.mem_cons.mp hmem with heq | hmem2
    · omega
    · exact absurd (hsig _ hmem2) (by omega)
  · exact (hdims.1.1).symm
  · exact (hdims.1.2.1).symm
  · exact (hdims.2.1).symm
  · exact (hdims.2.2.1).symm

/-- Witness for C2 at the freshly created renderer. -/
theorem claim_c2_reset_witness :
    dimsOK initialState ∧ initialState.frameId + 1 < 2 ^ 64 ∧
      (reset initialState).frameId = initialState.frameId + 1 ∧
      (reset initialState).camera = initialState.camera := by
  have h := claim_c2_reset initialState dimsOK_initialState (by decide)
    (by intro c hc; simp [initialState] at hc)
  exact ⟨dimsOK_initialState, by decide, h.1, h.2.2.2.2.2.2.2.2.2.2.2.2.2.2.1⟩

/-- C3: the claim says a failing scene construction at startup must prevent
the process from serving; but `main` discards `loadScene`'s error return
value, so the handlers, the listener and the background render loop start
regardless, with a nil scene handle. -/
theorem claim_c3_startup_serves_despite_failure :
    (∀ r : Except Unit Nat, (goMain r).servingStarted = true) ∧
    (goMain (.error ())).servingStarted = true ∧
    (goMain (.error ())).state.scene = none ∧
    (goMain (.error ())).state = initialState :=
  ⟨fun _ => rfl, rfl, rfl, rfl⟩

/-- C7: the claim says a failing encode or write on a streaming connection
terminates only that connection's tasks; but the push goroutine calls
`panic(err)` in both cases, and an unrecovered panic in a plain goroutine
aborts the whole process. -/
theorem claim_c7_push_failure_crashes_process :
    wsPushIteration false true 0 = .processCrash ∧
    wsPushIteration true false 0 = .processCrash :=
  ⟨rfl, rfl⟩

/-- C8: the claim says a failing overlay pass (sub-scene BVH construction
error) is merely dropped; but `renderGUI` panics on that error, both when
invoked directly and through `mousemove`, instead of dropping the pass. -/
theorem claim_c8_overlay_bvh_failure_aborts :
    (renderGUIpass guiEnvBVHfail { initialState with hovered := some 0 }
        { initialState with hovered := some 0 }).aborted = true ∧
    (mousemove guiEnvBVHfail 5 5 initialState).aborted = true :=
  ⟨rfl, rfl⟩

/-- C9: each stream-publisher iteration sleeps exactly
max(0, 200 - elapsedMs) milliseconds: never negative, and zero as soon as the
iteration's work took 200ms or more. -/
theorem claim_c9_stream_pacing (e : Int) :
    wsSleepMs e = max 0 (200 - e) ∧
    0 ≤ wsSleepMs e ∧
    (200 ≤ e → wsSleepMs e = 0) ∧
    wsPushIteration false false e = .sleep (wsSleepMs e) := by
  refine ⟨rfl, le_max_left _ _, fun h => ?_, rfl⟩
  exact max_eq_left (by omega)

/-- Witness for C9 at an iteration that took 350ms. -/
theorem claim_c9_stream_pacing_witness :
    (200 : ℤ) ≤ 350 ∧ wsSleepMs 350 = 0 :=
  ⟨by norm_num, (claim_c9_stream_pacing 350).2.2.1 (by norm_num)⟩

end Tracer

namespace Tracer

/-- C1: every sampling pass captures the epoch counter under the lock (the
pass reads it from its start-time state `s0`), and after the engine returns it
merges into the live buffer — `Avg` into the base buffer for the scene pass,
replacement of the overlay buffer for the overlay pass — exactly when the
live epoch at completion time (`s1`) still equals the captured one; when the
epochs differ the completed work is discarded and the live state is left
unchanged. -/
theorem claim_c1_epoch_guard (s0 s1 : RendererState) (fill : Nat → Pixel) (env : GuiEnv)
    (h : dimsOK s1) :
    (renderPass fill s0 s1).state =
      (if s1.frameId = s0.frameId
        then { s1 with sceneFrame := frameAvgData s1.sceneFrame (engineFrame fill) }
        else s1) ∧
    (s1.frameId ≠ s0.frameId →
      (renderPass fill s0 s1).state = s1 ∧ (renderPass fill s0 s1).aborted = false) ∧
    (renderGUIpass env s0 s1).state =
      (match renderGUIcompute env s0 with
        | .ok g => if s1.frameId = s0.frameId then { s1 with guiFrame := g } else s1
        | .error _ => s1) ∧
    (s1.frameId ≠ s0.frameId → (renderGUIpass env s0 s1).state = s1) := by
  have hscene : (renderPass fill s0 s1).state =
      (if s1.frameId = s0.frameId
        then { s1 with sceneFrame := frameAvgData s1.sceneFrame (engineFrame fill) }
        else s1) := by
    by_cases hid : s1.frameId = s0.frameId
    · rw [if_pos hid]
      unfold renderPass renderFinish
      rw [if_pos hid, avgChecked_ok _ _ h.1 (frameDimsOK_engineFrame fill)]
    · rw [if_neg hid]
      unfold renderPass renderFinish
      rw [if_neg hid]
  have hgui : (renderGUIpass env s0 s1).state =
      (match renderGUIcompute env s0 with
        | .ok g => if s1.frameId = s0.frameId then { s1 with guiFrame := g } else s1
        | .error _ => s1) := by
    unfold renderGUIpass renderGUIFinish
    cases hc : renderGUIcompute env s0 with
    | error c => rfl
    | ok g => rfl
  refine ⟨hscene, fun hne => ⟨?_, ?_⟩, hgui, fun hne => ?_⟩
  · rw [hscene, if_neg hne]
  · unfold renderPass renderFinish
    rw [if_neg hne]
  · rw [hgui]
    cases renderGUIcompute env s0 with
    | error c => rfl
    | ok g =>
      dsimp only
      rw [if_neg hne]

/-- Witness for C1: a pass whose captured epoch is still live merges, and one
completing after a reset leaves the state unchanged. -/
theorem claim_c1_epoch_guard_witness :
    dimsOK initialState ∧
    (renderPass (fun _ => Pixel.zero) initialState initialState).state =
      { initialState with
          sceneFrame := frameAvgData initialState.sceneFrame
            (engineFrame (fun _ => Pixel.zero)) } ∧
    (renderPass (fun _ => Pixel.zero) (reset initialState) initialState).state =
      initialState := by
  refine ⟨dimsOK_initialState, ?_, ?_⟩
  · have h := (claim_c1_epoch_guard initialState initialState (fun _ => Pixel.zero)
      trivGuiEnv dimsOK_initialState).1
    rwa [if_pos rfl] at h
  · exact ((claim_c1_epoch_guard (reset initialState) initialState (fun _ => Pixel.zero)
      trivGuiEnv dimsOK_initialState).2.1 (by decide)).1

/-- C10: in every reachable state both live buffers have the single fixed
resolution 500 × 281 (and a full pixel grid), every buffer a pass allocates
is sized to match, and therefore every `Avg`/`Blend` call site in the program
— the scene pass's merge, the two overlay blends inside `renderGUI`, and the
two blends inside `Encode` — takes the dimensions-match branch; the
DimensionMismatch failure branch is unreachable. -/
theorem claim_c10_dims_safe (s0 s1 : RendererState) (fill : Nat → Pixel) (env : GuiEnv)
    (h0 : Reach s0) (h1 : Reach s1) :
    imageWidth = 500 ∧ imageHeight = 281 ∧
    s0.sceneFrame.width = 500 ∧ s0.sceneFrame.height = 281 ∧
    s0.guiFrame.width = 500 ∧ s0.guiFrame.height = 281 ∧
    s0.sceneFrame.avgChecked (engineFrame fill) =
      .ok (frameAvgData s0.sceneFrame (engineFrame fill)) ∧
    renderGUIcompute env s0 ≠ .error .dimMismatch ∧
    (renderPass fill s0 s1).aborted = false ∧
    (encode s0).2 =
      .ok (frameBlendData (frameBlendData newFrame s0.guiFrame 1 1) s0.sceneFrame 1 1) := by
  have hd0 := reach_dimsOK s0 h0
  have hd1 := reach_dimsOK s1 h1
  have hw : imageWidth = 500 := rfl
  refine ⟨rfl, imageHeight_eq, hw ▸ hd0.1.1, imageHeight_eq ▸ hd0.1.2.1,
    hw ▸ hd0.2.1, imageHeight_eq ▸ hd0.2.2.1,
    avgChecked_ok _ _ hd0.1 (frameDimsOK_engineFrame fill),
    (renderGUIcompute_dims env s0 hd0.1).1, ?_, ?_⟩
  · unfold renderPass renderFinish
    split
    · rw [avgChecked_ok _ _ hd1.1 (frameDimsOK_engineFrame fill)]
    · rfl
  · unfold encode
    dsimp only
    rw [blendChecked_ok newFrame s0.guiFrame 1 1 frameDimsOK_newFrame hd0.2]
    dsimp only
    rw [blendChecked_ok _ s0.sceneFrame 1 1
      (frameDimsOK_blendData _ _ 1 1 frameDimsOK_newFrame hd0.2) hd0.1]

/-- Witness for C10 at the boot state. -/
theorem claim_c10_dims_safe_witness :
    (renderPass (fun _ => Pixel.zero) initialState initialState).aborted = false ∧
    renderGUIcompute trivGuiEnv initialState ≠ .error .dimMismatch ∧
    initialState.sceneFrame.width = 500 := by
  obtain ⟨-, -, hw, -, -, -, -, hgui, hpass, -⟩ :=
    claim_c10_dims_safe initialState initialState (fun _ => Pixel.zero) trivGuiEnv
      reach_initialState reach_initialState
  exact ⟨hpass, hgui, hw⟩

end Tracer

namespace Tracer

/-- C4: the websocket handler matches the wire-protocol table: "1"/"2" move
camera Z by ∓0.5 and reset, "3"/"4" move camera X by ∓0.5 and reset, and any
message outside the vocabulary — including pointer messages of wrong arity,
with non-numeric coordinates, or with an unrecognized verb — is ignored:
the state (camera and epoch included) is unchanged and no reset happens. -/
theorem claim_c4_wire_protocol (s : RendererState) (env : GuiEnv) (msg : String) :
    handleMessage env "1" s = ⟨reset (camAddZ s (-(1 / 2))), false⟩ ∧
    handleMessage env "2" s = ⟨reset (camAddZ s (1 / 2)), false⟩ ∧
    handleMessage env "3" s = ⟨reset (camAddX s (-(1 / 2))), false⟩ ∧
    handleMessage env "4" s = ⟨reset (camAddX s (1 / 2)), false⟩ ∧
    (ignoredMsg msg = true → handleMessage env msg s = ⟨s, false⟩) := by
  refine ⟨rfl, rfl, rfl, rfl, fun hig => ?_⟩
  unfold ignoredMsg at hig
  rw [Bool.and_eq_true] at hig
  obtain ⟨h14, hrest⟩ := hig
  simp only [Bool.not_eq_true', Bool.or_eq_false_iff, beq_eq_false_iff_ne] at h14
  obtain ⟨⟨⟨n1, n2⟩, n3⟩, n4⟩ := h14
  unfold handleMessage
  rw [if_neg n1, if_neg n2, if_neg n3, if_neg n4]
  cases hpre : (startsWithGo msg "mousemove" || startsWithGo msg "mouseclick") with
  | false => rw [if_neg (by simp)]
  | true =>
    rw [if_pos rfl]
    cases hp : parsePointerMsg msg with
    | none => rfl
    | some t =>
      obtain ⟨p0, x, y⟩ := t
      rw [hp] at hrest
      simp only [Bool.not_eq_true', Bool.or_eq_false_iff, beq_eq_false_iff_ne] at hrest
      obtain ⟨m1, m2⟩ := hrest
      dsimp only
      rw [if_neg m1, if_neg m2]

/-- Witness for C4: a message outside the vocabulary is ignored. -/
theorem claim_c4_wire_protocol_witness :
    ignoredMsg "mousemove 3" = true ∧
      handleMessage trivGuiEnv "mousemove 3" initialState = ⟨initialState, false⟩ :=
  ⟨by decide,
    (claim_c4_wire_protocol initialState trivGuiEnv "mousemove 3").2.2.2.2 (by decide)⟩

end Tracer

namespace Tracer

theorem renderGUIpass_only_gui (env : GuiEnv) (s0 s1 : RendererState) :
    (renderGUIpass env s0 s1).state.sceneFrame = s1.sceneFrame ∧
    (renderGUIpass env s0 s1).state.frameId = s1.frameId ∧
    (renderGUIpass env s0 s1).state.stop = s1.stop ∧
    (renderGUIpass env s0 s1).state.cancelled = s1.cancelled ∧
    (renderGUIpass env s0 s1).state.camera = s1.camera ∧
    (renderGUIpass env s0 s1).state.scene = s1.scene ∧
    (renderGUIpass env s0 s1).state.hovered = s1.hovered ∧
    (renderGUIpass env s0 s1).state.selected = s1.selected := by
  unfold renderGUIpass renderGUIFinish
  cases renderGUIcompute env s0 with
  | error c => exact ⟨rfl, rfl, rfl, rfl, rfl, rfl, rfl, rfl⟩
  | ok g =>
    dsimp only
    split <;> exact ⟨rfl, rfl, rfl, rfl, rfl, rfl, rfl, rfl⟩

theorem mousemove_fields (env : GuiEnv) (x y : Int) (s : RendererState) :
    (mousemove env x y s).state.frameId = s.frameId ∧
    (mousemove env x y s).state.sceneFrame = s.sceneFrame ∧
    (mousemove env x y s).state.stop = s.stop ∧
    (mousemove env x y s).state.cancelled = s.cancelled ∧
    (mousemove env x y s).state.camera = s.camera ∧
    (mousemove env x y s).state.scene = s.scene := by
  unfold mousemove
  have h := renderGUIpass_only_gui env
    { s with hovered := env.hitTest x y } { s with hovered := env.hitTest x y }
  exact ⟨h.2.1, h.1, h.2.2.1, h.2.2.2.1, h.2.2.2.2.1, h.2.2.2.2.2.1⟩

theorem mouseclick_fields (env : GuiEnv) (x y : Int) (s : RendererState) :
    (mouseclick env x y s).state.frameId = s.frameId ∧
    (mouseclick env x y s).state.sceneFrame = s.sceneFrame ∧
    (mouseclick env x y s).state.stop = s.stop ∧
    (mouseclick env x y s).state.cancelled = s.cancelled ∧
    (mouseclick env x y s).state.camera = s.camera ∧
    (mouseclick env x y s).state.scene = s.scene := by
  unfold mouseclick
  have h := renderGUIpass_only_gui env
    { s with selected := env.hitTest x y } { s with selected := env.hitTest x y }
  exact ⟨h.2.1, h.1, h.2.2.1, h.2.2.2.1, h.2.2.2.2.1, h.2.2.2.2.2.1⟩

/-- C5: handling a successfully parsed mousemove or mouseclick message leaves
the epoch counter, the base scene buffer, the cancellation signal (both the
live signal and the cancelled list) and the camera unchanged — only the
hovered/selected handles and the overlay buffer may change — and triggers no
reset. -/
theorem claim_c5_pointer_no_reset (env : GuiEnv) (msg : String) (s : RendererState)
    (p0 : String) (x y : Int)
    (hp : parsePointerMsg msg = some (p0, x, y))
    (hpre : startsWithGo msg "mousemove" = true ∨ startsWithGo msg "mouseclick" = true) :
    (handleMessage env msg s).state.frameId = s.frameId ∧
    (handleMessage env msg s).state.sceneFrame = s.sceneFrame ∧
    (handleMessage env msg s).state.stop = s.stop ∧
    (handleMessage env msg s).state.cancelled = s.cancelled ∧
    (handleMessage env msg s).state.camera = s.camera ∧
    (handleMessage env msg s).state.scene = s.scene := by
  have n1 : msg ≠ "1" := by
    intro h; rw [h, show parsePointerMsg "1" = none by decide] at hp; cases hp
  have n2 : msg ≠ "2" := by
    intro h; rw [h, show parsePointerMsg "2" = none by decide] at hp; cases hp
  have n3 : msg ≠ "3" := by
    intro h; rw [h, show parsePointerMsg "3" = none by decide] at hp; cases hp
  have n4 : msg ≠ "4" := by
    intro h; rw [h, show parsePointerMsg "4" = none by decide] at hp; cases hp
  have hpre' : (startsWithGo msg "mousemove" || startsWithGo msg "mouseclick") = true := by
    rcases hpre with h | h <;> simp [h]
  unfold handleMessage
  rw [if_neg n1, if_neg n2, if_neg n3, if_neg n4, if_pos hpre', hp]
  dsimp only
  by_cases hm : p0 = "mousemove"
  · rw [if_pos hm]
    exact mousemove_fields env x y s
  · rw [if_neg hm]
    by_cases hc : p0 = "mouseclick"
    · rw [if_pos hc]
      exact mouseclick_fields env x y s
    · rw [if_neg hc]
      exact ⟨rfl, rfl, rfl, rfl, rfl, rfl⟩

/-- Witness for C5 on the message "mousemove 3 4". -/
theorem claim_c5_pointer_no_reset_witness :
    parsePointerMsg "mousemove 3 4" = some ("mousemove", 3, 4) ∧
    (handleMessage trivGuiEnv "mousemove 3 4" initialState).state.frameId =
      initialState.frameId ∧
    (handleMessage trivGuiEnv "mousemove 3 4" initialState).state.camera =
      initialState.camera := by
  have h := claim_c5_pointer_no_reset trivGuiEnv "mousemove 3 4" initialState
    "mousemove" 3 4 (by decide) (Or.inl (by decide))
  exact ⟨by decide, h.1, h.2.2.2.2.1⟩

end Tracer

namespace Tracer

theorem blendOver_rgb_eq (sp gp : Pixel)
    (hz : sp.a = 0 → sp.r = 0 ∧ sp.g = 0 ∧ sp.b = 0) :
    ((Pixel.blendOver (Pixel.blendOver Pixel.zero gp 1 1) sp 1 1).r,
      (Pixel.blendOver (Pixel.blendOver Pixel.zero gp 1 1) sp 1 1).g,
      (Pixel.blendOver (Pixel.blendOver Pixel.zero gp 1 1) sp 1 1).b) =
    ((Pixel.blendOver sp gp 1 1).r, (Pixel.blendOver sp gp 1 1).g,
      (Pixel.blendOver sp gp 1 1).b) := by
  unfold Pixel.blendOver Pixel.zero
  by_cases hg : gp.a = 0
  · by_cases hs : sp.a = 0
    · obtain ⟨h1, h2, h3⟩ := hz hs
      simp [hg, hs, h1, h2, h3]
    · simp [hg, hs]
  · by_cases hs : sp.a = 0
    · obtain ⟨h1, h2, h3⟩ := hz hs
      simp [hg, hs, h1, h2, h3]
    · simp only [hg, hs, if_neg, if_false]
      norm_num
      refine ⟨by ring, by ring, by ring⟩

theorem blend_comm_rgb (n : Nat) (sc gl : List Pixel)
    (hsc : sc.length = n) (hgl : gl.length = n)
    (hz : ∀ p ∈ sc, p.a = 0 → p.r = 0 ∧ p.g = 0 ∧ p.b = 0) :
    (List.zipWith (fun p q => Pixel.blendOver p q 1 1)
        (List.zipWith (fun p q => Pixel.blendOver p q 1 1)
          (List.replicate n Pixel.zero) gl) sc).map (fun p => (p.r, p.g, p.b)) =
      (List.zipWith (fun p q => Pixel.blendOver p q 1 1) sc gl).map
        (fun p => (p.r, p.g, p.b)) := by
  induction n generalizing sc gl with
  | zero =>
    rw [List.length_eq_zero] at hsc hgl
    subst hsc
    subst hgl
    simp
  | succ m ih =>
    cases sc with
    | nil => cases hsc
    | cons sp st =>
      cases gl with
      | nil => cases hgl
      | cons gp gt =>
        simp only [List.replicate_succ, List.zipWith_cons_cons, List.map_cons]
        have hh := blendOver_rgb_eq sp gp (hz sp (by simp))
        have ht := ih st gt (by simpa using hsc) (by simpa using hgl)
          (fun p hp => hz p (by simp [hp]))
        rw [hh, ht]

/-- C6: every encode request blends the overlay buffer and the base buffer
into a freshly allocated temporary buffer, leaves every stored field of the
renderer unchanged, and — whenever uncovered (zero-alpha) base pixels carry no
color, as holds for every buffer the engine fills — the composed color data is
exactly the spec's "overlay blended over base" image. -/
theorem claim_c6_encode_composes (s : RendererState)
    (h : dimsOK s) (hz : zeroAlphaZeroRGB s.sceneFrame) :
    (encode s).1 = s ∧
    ∃ f g, (encode s).2 = .ok f ∧ specComposedImage s = .ok g ∧
      f.rgbData = g.rgbData := by
  have he1 := blendChecked_ok newFrame s.guiFrame 1 1 frameDimsOK_newFrame h.2
  have he2 := blendChecked_ok (frameBlendData newFrame s.guiFrame 1 1) s.sceneFrame 1 1
    (frameDimsOK_blendData _ _ 1 1 frameDimsOK_newFrame h.2) h.1
  have hsp := blendChecked_ok s.sceneFrame s.guiFrame 1 1 h.1 h.2
  have henc : encode s =
      (s, .ok (frameBlendData (frameBlendData newFrame s.guiFrame 1 1) s.sceneFrame 1 1)) := by
    unfold encode
    dsimp only
    rw [he1]
    dsimp only
    rw [he2]
  refine ⟨by rw [henc],
    frameBlendData (frameBlendData newFrame s.guiFrame 1 1) s.sceneFrame 1 1,
    frameBlendData s.sceneFrame s.guiFrame 1 1, by rw [henc], ?_, ?_⟩
  · unfold specComposedImage
    exact hsp
  · unfold Frame.rgbData frameBlendData
    dsimp only
    rw [show newFrame.pixels = List.replicate (imageWidth * imageHeight) Pixel.zero from rfl]
    exact blend_comm_rgb (imageWidth * imageHeight) s.sceneFrame.pixels s.guiFrame.pixels
      h.1.2.2 h.2.2.2 hz

/-- Witness for C6 at the boot state, whose base buffer is zeroed. -/
theorem claim_c6_encode_composes_witness :
    dimsOK initialState ∧ zeroAlphaZeroRGB initialState.sceneFrame ∧
    (encode initialState).1 = initialState := by
  have hz : zeroAlphaZeroRGB initialState.sceneFrame := by
    intro p hp
    rw [newFrame_pixels_zero p hp]
    intro
    exact ⟨rfl, rfl, rfl⟩
  exact ⟨dimsOK_initialState, hz,
    (claim_c6_encode_composes initialState dimsOK_initialState hz).1⟩

end Tracer
